import Mathlib

/-!
Verification of the ESP32 patch-bay button/state-machine core
(`src/main/buttons.c`) against its natural-language specification.

The C source is shallowly embedded: byte buffers become `List Nat`,
`memcpy`/`memset` become explicit list operations, the NVS key→blob store
becomes a function `NvsKey → Option (List Nat)` together with injected
fault flags, and the `buttons_task` state machine body becomes a pure
step function on a `SysState` record.  Machine-integer time arithmetic
(`uint32_t` milliseconds) is modelled as `Nat` reduced mod `2 ^ 32`.
-/

set_option maxHeartbeats 1000000

namespace PatchBay

/-- `NUM_PEDALS_MAX` from `buttons.h`: maximum chain length / pedal count. -/
def NUM_PEDALS_MAX : Nat := 8

/-- `NUM_PRESETS` from `buttons.h`: number of storable presets. -/
def NUM_PRESETS : Nat := 8

/-- `DEBOUNCE_TIME_MS` from `buttons.c`. -/
def DEBOUNCE_TIME_MS : Nat := 50

/-- `LONG_PRESS_DURATION_MS` from `buttons.c`. -/
def LONG_PRESS_DURATION_MS : Nat := 1500

/-- `memcpy(dst, src, n)` into the head of an 8-byte buffer: the first `n`
bytes come from `src`, the rest of `dst` is untouched. -/
def memcpyHead (dst src : List Nat) (n : Nat) : List Nat :=
  src.take n ++ dst.drop n

/-- `memset(dst + off, 0, n)`: bytes `off..off+n` of `dst` become zero,
the rest is untouched. -/
def memsetZero (dst : List Nat) (off n : Nat) : List Nat :=
  dst.take off ++ List.replicate n 0 ++ dst.drop (off + n)

/-- The subset of `esp_err_t` values distinguished by `buttons.c`. -/
inductive esp_err_t
  | ESP_OK
  | ESP_FAIL
  | ESP_ERR_NVS_NOT_FOUND
  | ESP_ERR_NVS_INVALID_LENGTH
  | ESP_ERR_OTHER
deriving DecidableEq

/-- Outcome of `nvs_get_blob` for one key, as seen by `_load_patch_from_nvs`:
the key holds a record `r`, the key is absent, or the read fails. -/
inductive nvs_get_res
  | found (r : List Nat)
  | notFound
  | ioError
deriving DecidableEq

/-- The three outputs of `_load_patch_from_nvs`: its return value, the final
contents of `data_buf` (8 bytes), and `*len_buf`. -/
structure load_out where
  err : esp_err_t
  data_buf : List Nat
  len_buf : Nat
deriving DecidableEq

/-- `_load_patch_from_nvs(key, data_buf, len_buf)` from `buttons.c`
(lines 142–195).  `openOk` is whether `nvs_open` succeeded; `g` is the
`nvs_get_blob` outcome for the key (a stored record longer than the 9-byte
stack buffer makes `nvs_get_blob` fail with `ESP_ERR_NVS_INVALID_LENGTH`);
`data_buf` is the caller's buffer with its prior contents. -/
def load_patch_from_nvs (openOk : Bool) (g : nvs_get_res) (data_buf : List Nat) :
    load_out :=
  if openOk then
    match g with
    | nvs_get_res.found r =>
      if r.length ≤ NUM_PEDALS_MAX + 1 then
        if r.length = NUM_PEDALS_MAX + 1 then
          let len0 := r.headD 0
          let len1 := if NUM_PEDALS_MAX < len0 then NUM_PEDALS_MAX else len0
          let buf1 := memcpyHead data_buf (r.drop 1) len1
          let buf2 :=
            if len1 < NUM_PEDALS_MAX then
              memsetZero buf1 len1 (NUM_PEDALS_MAX - len1)
            else buf1
          { err := esp_err_t.ESP_OK, data_buf := buf2, len_buf := len1 }
        else
          { err := esp_err_t.ESP_FAIL,
            data_buf := memsetZero data_buf 0 NUM_PEDALS_MAX, len_buf := 0 }
      else
        { err := esp_err_t.ESP_ERR_NVS_INVALID_LENGTH,
          data_buf := memsetZero data_buf 0 NUM_PEDALS_MAX, len_buf := 0 }
    | nvs_get_res.notFound =>
      { err := esp_err_t.ESP_OK,
        data_buf := memsetZero data_buf 0 NUM_PEDALS_MAX, len_buf := 0 }
    | nvs_get_res.ioError =>
      { err := esp_err_t.ESP_ERR_OTHER,
        data_buf := memsetZero data_buf 0 NUM_PEDALS_MAX, len_buf := 0 }
  else
    { err := esp_err_t.ESP_ERR_OTHER,
      data_buf := memsetZero data_buf 0 NUM_PEDALS_MAX, len_buf := 0 }

/-- The 9-byte record `_save_patch_to_nvs` builds in `nvs_buffer`
(lines 107–115): one length byte, then `len` data bytes, zero-padded to
`NUM_PEDALS_MAX` data bytes. -/
def save_record (data : List Nat) (len : Nat) : List Nat :=
  len :: (data.take len ++ List.replicate (NUM_PEDALS_MAX - len) 0)

/-- NVS keys used by `buttons.c`: `"live_cfg"` and `"preset_<i>"`. -/
inductive NvsKey
  | live
  | preset (i : Nat)
deriving DecidableEq

/-- The NVS environment: the key→blob store plus injected fault flags.
`openFail`/`readFail` cover `nvs_open`/`nvs_get_blob` failures on a load;
`writeFail` covers `nvs_open`/`nvs_set_blob`/`nvs_commit` failures on a
save (a failed save leaves the store unchanged). -/
structure NvsEnv where
  store : NvsKey → Option (List Nat)
  openFail : NvsKey → Bool
  readFail : NvsKey → Bool
  writeFail : NvsKey → Bool

/-- Point update of the key→blob store. -/
def setKey (s : NvsKey → Option (List Nat)) (k : NvsKey) (v : List Nat) :
    NvsKey → Option (List Nat) :=
  fun q => if q = k then some v else s q

/-- `_save_patch_to_nvs(key, data, len)` (lines 97–132): on success the
store maps `key` to the fixed-size record; on any failure the store is
unchanged and the call reports failure. -/
def save_patch_to_nvs (env : NvsEnv) (key : NvsKey) (data : List Nat) (len : Nat) :
    NvsEnv × Bool :=
  if env.writeFail key then (env, false)
  else ({ env with store := setKey env.store key (save_record data len) }, true)

/-- The `nvs_get_blob` outcome for key `k` under environment `env`. -/
def getBlobRes (env : NvsEnv) (k : NvsKey) : nvs_get_res :=
  if env.readFail k then nvs_get_res.ioError
  else
    match env.store k with
    | some r => nvs_get_res.found r
    | none => nvs_get_res.notFound

/-- `_load_patch_from_nvs` applied to key `k` of environment `env`,
with `old` the prior contents of the caller's `data_buf`. -/
def loadKey (env : NvsEnv) (k : NvsKey) (old : List Nat) : load_out :=
  load_patch_from_nvs (!env.openFail k) (getBlobRes env k) old

/-- `_is_live_patch_same_as_preset(i)` (lines 206–220): load preset slot
`i` into a local buffer and compare length and the first `live_len` bytes
with the live patch. -/
def is_live_patch_same_as_preset (env : NvsEnv) (live_data : List Nat)
    (live_len : Nat) (i : Nat) : Bool :=
  let out := loadKey env (NvsKey.preset i) (List.replicate NUM_PEDALS_MAX 0)
  decide (out.err = esp_err_t.ESP_OK ∧ out.len_buf = live_len ∧
    out.data_buf.take live_len = live_data.take live_len)

/-- The `for` loop of `_update_loaded_from_preset_slot_status`: scan slots
`i, i+1, ...` (with `fuel` slots left) and return the first index whose
predicate holds, `-1` if none does. -/
def first_match_from (p : Nat → Bool) (i : Nat) : Nat → Int
  | 0 => -1
  | Nat.succ fuel => if p i then (i : Int) else first_match_from p (i + 1) fuel

/-- `_update_loaded_from_preset_slot_status()` (lines 228–239): linear
first-match scan over preset slots `0..NUM_PRESETS-1` in ascending order;
`-1` when the live patch matches no stored preset. -/
def update_loaded_from_preset_slot_status (env : NvsEnv) (live_data : List Nat)
    (live_len : Nat) : Int :=
  first_match_from (is_live_patch_same_as_preset env live_data live_len) 0 NUM_PRESETS

/-- `patch_bay_system_mode_t` from `buttons.h`. -/
inductive patch_bay_system_mode_t
  | MODE_LIVE
  | MODE_PROGRAM_CHAIN
  | MODE_RECALL_SLOT_SELECT
  | MODE_SAVE_SLOT_SELECT
deriving DecidableEq

/-- The mutable globals of `buttons.c` read and written by the state
machine: `current_system_mode`, `live_patch_data` (8 bytes),
`live_patch_len`, `loaded_from_preset_slot` (`-1` or `0..7`). -/
structure SysState where
  current_system_mode : patch_bay_system_mode_t
  live_patch_data : List Nat
  live_patch_len : Nat
  loaded_from_preset_slot : Int
deriving DecidableEq

/-- The one-shot event flags visible to one iteration of `buttons_task`:
`short_press_event` of the edit/save and preset buttons, the preset
button's `ongoing_long_press` latch, and `short_press_event` of each of
the 8 pedal buttons. -/
structure Events where
  edit_short : Bool
  preset_short : Bool
  preset_ongoing_long : Bool
  pedal_short : List Bool
deriving DecidableEq

/-- The user-visible notifications (`gui_set_status` calls with a
non-empty message) one `buttons_task` iteration can emit, with their
numeric parameter where the format string has one. -/
inductive Notice
  | programChain
  | chainSetSaved
  | programCanceled
  | recallSelect
  | recallCanceled
  | pLoaded (i : Nat)
  | slotLoadErr (i : Nat)
  | saveSelect
  | saveCanceled
  | savedTo (i : Nat)
  | saveErr (i : Nat)
  | alreadyInChain (n : Nat)
  | chainFull
deriving DecidableEq

/-- The `MODE_PROGRAM_CHAIN` pedal-press body (lines 580–621): if the
chain is not full and pedal id `i+1` is not yet in the first
`live_patch_len` entries, append it; a duplicate or a full chain leaves
the chain unchanged and emits a notification. -/
def program_pedal_press (i : Nat) (s : (List Nat × Nat) × List Notice) :
    (List Nat × Nat) × List Notice :=
  let data := s.1.1
  let len := s.1.2
  let ns := s.2
  if len < NUM_PEDALS_MAX then
    if (data.take len).contains (i + 1) then
      ((data, len), ns ++ [Notice.alreadyInChain (i + 1)])
    else
      ((data.set len (i + 1), len + 1), ns)
  else
    ((data, len), ns ++ [Notice.chainFull])

/-- The `break`-ing pedal loops of `MODE_RECALL_SLOT_SELECT` and
`MODE_SAVE_SLOT_SELECT`: only the first pedal with a pending short press
is honored. -/
def firstPressedPedal (ev : Events) : Option Nat :=
  (List.range NUM_PRESETS).find? (fun i => ev.pedal_short.getD i false)

/-- One iteration of the `switch (current_system_mode)` state machine in
`buttons_task` (lines 519–709), given the NVS environment and this
cycle's event flags.  Returns the new globals, the new NVS environment,
and the notifications emitted. -/
def buttons_task_step (env : NvsEnv) (ev : Events) (st : SysState) :
    SysState × NvsEnv × List Notice :=
  match st.current_system_mode with
  | patch_bay_system_mode_t.MODE_LIVE =>
    if ev.edit_short then
      ({ current_system_mode := patch_bay_system_mode_t.MODE_PROGRAM_CHAIN,
         live_patch_data := List.replicate NUM_PEDALS_MAX 0,
         live_patch_len := 0,
         loaded_from_preset_slot := -1 }, env, [Notice.programChain])
    else if ev.preset_short then
      ({ st with current_system_mode := patch_bay_system_mode_t.MODE_RECALL_SLOT_SELECT },
       env, [Notice.recallSelect])
    else if ev.preset_ongoing_long then
      ({ st with current_system_mode := patch_bay_system_mode_t.MODE_SAVE_SLOT_SELECT },
       env, [Notice.saveSelect])
    else (st, env, [])
  | patch_bay_system_mode_t.MODE_PROGRAM_CHAIN =>
    if ev.edit_short then
      let r := save_patch_to_nvs env NvsKey.live st.live_patch_data st.live_patch_len
      ({ st with
           current_system_mode := patch_bay_system_mode_t.MODE_LIVE,
           loaded_from_preset_slot := -1 }, r.1, [Notice.chainSetSaved])
    else if ev.preset_short then
      let out := loadKey env NvsKey.live st.live_patch_data
      let slot := update_loaded_from_preset_slot_status env out.data_buf out.len_buf
      ({ current_system_mode := patch_bay_system_mode_t.MODE_LIVE,
         live_patch_data := out.data_buf,
         live_patch_len := out.len_buf,
         loaded_from_preset_slot := slot }, env, [Notice.programCanceled])
    else
      let r := (List.range NUM_PEDALS_MAX).foldl
        (fun s i => if ev.pedal_short.getD i false then program_pedal_press i s else s)
        ((st.live_patch_data, st.live_patch_len), [])
      ({ st with live_patch_data := r.1.1, live_patch_len := r.1.2 }, env, r.2)
  | patch_bay_system_mode_t.MODE_RECALL_SLOT_SELECT =>
    if ev.preset_short || ev.edit_short then
      ({ st with current_system_mode := patch_bay_system_mode_t.MODE_LIVE },
       env, [Notice.recallCanceled])
    else
      match firstPressedPedal ev with
      | none => (st, env, [])
      | some i =>
        let out := loadKey env (NvsKey.preset i) st.live_patch_data
        if out.err = esp_err_t.ESP_OK then
          let r := save_patch_to_nvs env NvsKey.live out.data_buf out.len_buf
          ({ current_system_mode := patch_bay_system_mode_t.MODE_LIVE,
             live_patch_data := out.data_buf,
             live_patch_len := out.len_buf,
             loaded_from_preset_slot := (i : Int) }, r.1, [Notice.pLoaded i])
        else
          let out2 := loadKey env NvsKey.live out.data_buf
          let slot := update_loaded_from_preset_slot_status env out2.data_buf out2.len_buf
          ({ current_system_mode := patch_bay_system_mode_t.MODE_LIVE,
             live_patch_data := out2.data_buf,
             live_patch_len := out2.len_buf,
             loaded_from_preset_slot := slot }, env, [Notice.slotLoadErr i])
  | patch_bay_system_mode_t.MODE_SAVE_SLOT_SELECT =>
    if ev.preset_short || ev.edit_short then
      ({ st with current_system_mode := patch_bay_system_mode_t.MODE_LIVE },
       env, [Notice.saveCanceled])
    else
      match firstPressedPedal ev with
      | none => (st, env, [])
      | some i =>
        let r := save_patch_to_nvs env (NvsKey.preset i) st.live_patch_data st.live_patch_len
        if r.2 then
          let r2 := save_patch_to_nvs r.1 NvsKey.live st.live_patch_data st.live_patch_len
          ({ st with
               current_system_mode := patch_bay_system_mode_t.MODE_LIVE,
               loaded_from_preset_slot := (i : Int) }, r2.1, [Notice.savedTo i])
        else
          ({ st with current_system_mode := patch_bay_system_mode_t.MODE_LIVE },
           r.1, [Notice.saveErr i])

/-- The state `buttons_init` (lines 428–494) establishes: load the live
key into the zero-initialized globals, reset to the empty chain on a
serious load error, and compute `loaded_from_preset_slot` by the
first-match scan. -/
def buttons_init_state (env : NvsEnv) : SysState :=
  let out := loadKey env NvsKey.live (List.replicate NUM_PEDALS_MAX 0)
  let d :=
    if out.err ≠ esp_err_t.ESP_OK ∧ out.err ≠ esp_err_t.ESP_ERR_NVS_NOT_FOUND then
      (List.replicate NUM_PEDALS_MAX 0, 0)
    else (out.data_buf, out.len_buf)
  { current_system_mode := patch_bay_system_mode_t.MODE_LIVE,
    live_patch_data := d.1,
    live_patch_len := d.2,
    loaded_from_preset_slot := update_loaded_from_preset_slot_status env d.1 d.2 }

/-- `buttons_get_current_patch_for_matrix` (lines 738–747): copy
`live_patch_len` bytes of `live_patch_data` into the caller's buffer,
zero the rest, and report the length. -/
def buttons_get_current_patch_for_matrix (live_data : List Nat) (live_len : Nat)
    (patch_buffer : List Nat) : List Nat × Nat :=
  let buf := memcpyHead patch_buffer live_data live_len
  let buf2 :=
    if live_len < NUM_PEDALS_MAX then
      memsetZero buf live_len (NUM_PEDALS_MAX - live_len)
    else buf
  (buf2, live_len)

/-- `button_state_t` from `buttons.c` (the `pin` field is replaced by the
`is_preset_pin` parameter of `process_button`, the only place it is
consulted). -/
structure button_state_t where
  current_state : Bool
  last_state : Bool
  press_time_ms : Nat
  release_time_ms : Nat
  short_press_event : Bool
  long_press_event : Bool
  ongoing_long_press : Bool
deriving DecidableEq

/-- `_process_button(btn)` (lines 368–420).  `raw1` is the first
(active-low-converted) GPIO read, `raw2` the re-read after the debounce
delay, `now` the tick-derived millisecond time (truncated to `uint32_t`).
`is_preset_pin` is the `btn->pin == CONFIG_PRESET_BUTTON_PIN` test. -/
def process_button (is_preset_pin : Bool) (raw1 raw2 : Bool) (now : Nat)
    (btn : button_state_t) : button_state_t :=
  let t := now % 2 ^ 32
  let b0 := { btn with short_press_event := false, long_press_event := false }
  let b1 :=
    if raw1 ≠ b0.last_state then
      let ba := { b0 with last_state := raw1 }
      if raw2 ≠ ba.current_state then
        let bb := { ba with current_state := raw2 }
        if raw2 then
          { bb with press_time_ms := t, ongoing_long_press := false }
        else
          let bc := { bb with release_time_ms := t }
          if bc.ongoing_long_press then
            { bc with long_press_event := true, ongoing_long_press := false }
          else
            { bc with short_press_event := true }
      else ba
    else b0
  if b1.current_state && !b1.ongoing_long_press then
    if LONG_PRESS_DURATION_MS ≤ (t + 2 ^ 32 - b1.press_time_ms) % 2 ^ 32 then
      if is_preset_pin then { b1 with ongoing_long_press := true } else b1
    else b1
  else b1

/-- One interaction with a button's state: a polling cycle of
`_process_button`, or the state machine consuming the latch
(`preset_btn_state.ongoing_long_press = false`, line 542). -/
inductive btn_op
  | poll (raw1 raw2 : Bool) (now : Nat)
  | consume
deriving DecidableEq

/-- Apply one `btn_op`. -/
def btn_step (is_preset_pin : Bool) (b : button_state_t) : btn_op → button_state_t
  | btn_op.poll r1 r2 now => process_button is_preset_pin r1 r2 now b
  | btn_op.consume => { b with ongoing_long_press := false }

/-- Run a sequence of `btn_op`s. -/
def btn_run (is_preset_pin : Bool) (b : button_state_t) : List btn_op → button_state_t
  | [] => b
  | op :: ops => btn_run is_preset_pin (btn_step is_preset_pin b op) ops

/-- Number of false→true transitions of the `ongoing_long_press` latch
along a sequence of `btn_op`s. -/
def latch_rises (is_preset_pin : Bool) (b : button_state_t) : List btn_op → Nat
  | [] => 0
  | op :: ops =>
    let b2 := btn_step is_preset_pin b op
    (if b.ongoing_long_press = false ∧ b2.ongoing_long_press = true then 1 else 0) +
      latch_rises is_preset_pin b2 ops

/-- A polling cycle during which the button reads as held down on both
GPIO samples. -/
def is_pressed_poll : btn_op → Bool
  | btn_op.poll true true _ => true
  | _ => false

/-- The data-model invariant on the live-patch globals:
`live_patch_len ≤ NUM_PEDALS_MAX` and the 8-byte buffer keeps its size. -/
def SysInv (st : SysState) : Prop :=
  st.live_patch_len ≤ NUM_PEDALS_MAX ∧ st.live_patch_data.length = NUM_PEDALS_MAX

/-- Concrete NVS environment for the save-then-scan scenario: preset
slot 0 already holds the stored record of the chain `[1]`; no faults. -/
def cex_env : NvsEnv :=
  { store := fun k =>
      if k = NvsKey.preset 0 then some [1, 1, 0, 0, 0, 0, 0, 0, 0] else none,
    openFail := fun _ => false, readFail := fun _ => false,
    writeFail := fun _ => false }

/-- Concrete state for the save-then-scan scenario: `SaveSelect` mode with
LiveConfig `[1]`. -/
def cex_st : SysState :=
  { current_system_mode := patch_bay_system_mode_t.MODE_SAVE_SLOT_SELECT,
    live_patch_data := [1, 0, 0, 0, 0, 0, 0, 0], live_patch_len := 1,
    loaded_from_preset_slot := -1 }

/-- Concrete events for the save-then-scan scenario: only pedal index 1
(preset slot 1) short-pressed. -/
def cex_ev : Events :=
  { edit_short := false, preset_short := false, preset_ongoing_long := false,
    pedal_short := [false, true, false, false, false, false, false, false] }

/-! ### Helper lemmas -/

theorem foldl_preserve {α β : Type} (P : α → Prop) (f : α → β → α)
    (h : ∀ s x, P s → P (f s x)) :
    ∀ (l : List β) (s : α), P s → P (l.foldl f s)
  | [], _, hs => hs
  | x :: l, s, hs => foldl_preserve P f h l (f s x) (h s x hs)

theorem memsetZero_full (old : List Nat) (hold : old.length = NUM_PEDALS_MAX) :
    memsetZero old 0 NUM_PEDALS_MAX = List.replicate NUM_PEDALS_MAX 0 := by
  simp [memsetZero, hold]

theorem save_record_length (data : List Nat) (len : Nat)
    (hlen : len ≤ NUM_PEDALS_MAX) (hd : data.length = NUM_PEDALS_MAX) :
    (save_record data len).length = NUM_PEDALS_MAX + 1 := by
  simp [save_record, List.length_take, hd, NUM_PEDALS_MAX] at *
  omega

theorem load_found_9 (r old : List Nat) (hr : r.length = NUM_PEDALS_MAX + 1)
    (hold : old.length = NUM_PEDALS_MAX) :
    load_patch_from_nvs true (nvs_get_res.found r) old =
      { err := esp_err_t.ESP_OK,
        data_buf :=
          (r.drop 1).take (if NUM_PEDALS_MAX < r.headD 0 then NUM_PEDALS_MAX else r.headD 0) ++
            List.replicate
              (NUM_PEDALS_MAX -
                (if NUM_PEDALS_MAX < r.headD 0 then NUM_PEDALS_MAX else r.headD 0)) 0,
        len_buf := if NUM_PEDALS_MAX < r.headD 0 then NUM_PEDALS_MAX else r.headD 0 } := by
  have hdrop : (r.drop 1).length = NUM_PEDALS_MAX := by
    simp [List.length_drop, hr]
  set len1 := if NUM_PEDALS_MAX < r.headD 0 then NUM_PEDALS_MAX else r.headD 0 with hlen1def
  have hlen1 : len1 ≤ NUM_PEDALS_MAX := by
    rw [hlen1def]; split <;> omega
  have htake : ((r.drop 1).take len1).length = len1 := by
    simp [List.length_take, hdrop]; omega
  unfold load_patch_from_nvs
  simp only [if_pos (le_of_eq hr), if_pos rfl, if_pos (le_refl (NUM_PEDALS_MAX + 1)), hr,
    le_refl, ite_true]
  simp only [← hlen1def, memcpyHead]
  by_cases hc : len1 < NUM_PEDALS_MAX
  · have hbuflen : ((r.drop 1).take len1 ++ old.drop len1).length = NUM_PEDALS_MAX := by
      simp [htake, List.length_drop, hold]; omega
    simp only [if_pos hc, memsetZero]
    rw [List.take_left' htake]
    rw [List.drop_eq_nil_of_le (by omega : ((r.drop 1).take len1 ++ old.drop len1).length ≤ len1 + (NUM_PEDALS_MAX - len1))]
    simp
  · have hc8 : len1 = NUM_PEDALS_MAX := by omega
    simp only [if_neg hc]
    rw [hc8]
    simp [List.take_of_length_le hdrop.le, List.drop_eq_nil_of_le hold.le, Nat.sub_self]

theorem load_notFound (old : List Nat) (hold : old.length = NUM_PEDALS_MAX) :
    load_patch_from_nvs true nvs_get_res.notFound old =
      { err := esp_err_t.ESP_OK, data_buf := List.replicate NUM_PEDALS_MAX 0,
        len_buf := 0 } := by
  simp [load_patch_from_nvs, memsetZero_full old hold]

theorem load_ioError (old : List Nat) (hold : old.length = NUM_PEDALS_MAX) :
    load_patch_from_nvs true nvs_get_res.ioError old =
      { err := esp_err_t.ESP_ERR_OTHER, data_buf := List.replicate NUM_PEDALS_MAX 0,
        len_buf := 0 } := by
  simp [load_patch_from_nvs, memsetZero_full old hold]

theorem load_openFail (g : nvs_get_res) (old : List Nat)
    (hold : old.length = NUM_PEDALS_MAX) :
    load_patch_from_nvs false g old =
      { err := esp_err_t.ESP_ERR_OTHER, data_buf := List.replicate NUM_PEDALS_MAX 0,
        len_buf := 0 } := by
  simp [load_patch_from_nvs, memsetZero_full old hold]

theorem load_found_small (r old : List Nat) (hr : r.length ≤ NUM_PEDALS_MAX + 1)
    (hr9 : r.length ≠ NUM_PEDALS_MAX + 1) (hold : old.length = NUM_PEDALS_MAX) :
    load_patch_from_nvs true (nvs_get_res.found r) old =
      { err := esp_err_t.ESP_FAIL, data_buf := List.replicate NUM_PEDALS_MAX 0,
        len_buf := 0 } := by
  simp [load_patch_from_nvs, hr, hr9, memsetZero_full old hold]

theorem load_found_big (r old : List Nat) (hr : ¬ r.length ≤ NUM_PEDALS_MAX + 1)
    (hold : old.length = NUM_PEDALS_MAX) :
    load_patch_from_nvs true (nvs_get_res.found r) old =
      { err := esp_err_t.ESP_ERR_NVS_INVALID_LENGTH,
        data_buf := List.replicate NUM_PEDALS_MAX 0, len_buf := 0 } := by
  simp [load_patch_from_nvs, hr, memsetZero_full old hold]

theorem load_len_le (ok : Bool) (g : nvs_get_res) (old : List Nat)
    (hold : old.length = NUM_PEDALS_MAX) :
    (load_patch_from_nvs ok g old).len_buf ≤ NUM_PEDALS_MAX := by
  cases ok
  · rw [load_openFail g old hold]; simp
  · cases g with
    | found r =>
      by_cases h1 : r.length ≤ NUM_PEDALS_MAX + 1
      · by_cases h2 : r.length = NUM_PEDALS_MAX + 1
        · rw [load_found_9 r old h2 hold]
          simp only
          split <;> omega
        · rw [load_found_small r old h1 h2 hold]; simp
      · rw [load_found_big r old h1 hold]; simp
    | notFound => rw [load_notFound old hold]; simp
    | ioError => rw [load_ioError old hold]; simp

theorem load_buf_length (ok : Bool) (g : nvs_get_res) (old : List Nat)
    (hold : old.length = NUM_PEDALS_MAX) :
    (load_patch_from_nvs ok g old).data_buf.length = NUM_PEDALS_MAX := by
  cases ok
  · rw [load_openFail g old hold]; simp
  · cases g with
    | found r =>
      by_cases h1 : r.length ≤ NUM_PEDALS_MAX + 1
      · by_cases h2 : r.length = NUM_PEDALS_MAX + 1
        · rw [load_found_9 r old h2 hold]
          have hdrop : (r.drop 1).length = NUM_PEDALS_MAX := by
            simp [List.length_drop, h2]
          simp [List.length_take, hdrop]
          split <;> omega
        · rw [load_found_small r old h1 h2 hold]; simp
      · rw [load_found_big r old h1 hold]; simp
    | notFound => rw [load_notFound old hold]; simp
    | ioError => rw [load_ioError old hold]; simp

theorem load_indep (ok : Bool) (g : nvs_get_res) (old old2 : List Nat)
    (hold : old.length = NUM_PEDALS_MAX) (hold2 : old2.length = NUM_PEDALS_MAX) :
    load_patch_from_nvs ok g old = load_patch_from_nvs ok g old2 := by
  cases ok
  · rw [load_openFail g old hold, load_openFail g old2 hold2]
  · cases g with
    | found r =>
      by_cases h1 : r.length ≤ NUM_PEDALS_MAX + 1
      · by_cases h2 : r.length = NUM_PEDALS_MAX + 1
        · rw [load_found_9 r old h2 hold, load_found_9 r old2 h2 hold2]
        · rw [load_found_small r old h1 h2 hold, load_found_small r old2 h1 h2 hold2]
      · rw [load_found_big r old h1 hold, load_found_big r old2 h1 hold2]
    | notFound => rw [load_notFound old hold, load_notFound old2 hold2]
    | ioError => rw [load_ioError old hold, load_ioError old2 hold2]

theorem load_of_save_record (data old : List Nat) (len : Nat)
    (hlen : len ≤ NUM_PEDALS_MAX) (hd : data.length = NUM_PEDALS_MAX)
    (hold : old.length = NUM_PEDALS_MAX) :
    load_patch_from_nvs true (nvs_get_res.found (save_record data len)) old =
      { err := esp_err_t.ESP_OK,
        data_buf := data.take len ++ List.replicate (NUM_PEDALS_MAX - len) 0,
        len_buf := len } := by
  have hr : (save_record data len).length = NUM_PEDALS_MAX + 1 :=
    save_record_length data len hlen hd
  have hhead : (save_record data len).headD 0 = len := by simp [save_record]
  have hdrop : (save_record data len).drop 1 =
      data.take len ++ List.replicate (NUM_PEDALS_MAX - len) 0 := by
    simp [save_record]
  have htklen : (data.take len).length = len := by
    simp [List.length_take, hd]; omega
  rw [load_found_9 (save_record data len) old hr hold, hhead, hdrop]
  have hnoclamp : ¬ NUM_PEDALS_MAX < len := by omega
  simp only [if_neg hnoclamp]
  rw [List.take_left' htklen]

theorem take_set_self : ∀ (l : List Nat) (n : Nat) (v : Nat), n < l.length →
    (l.set n v).take (n + 1) = l.take n ++ [v]
  | [], n, _, h => absurd h (by simp)
  | _ :: _, 0, v, _ => by simp
  | a :: l, Nat.succ n, v, h => by
    have ih := take_set_self l n v (by simp at h; omega)
    simp [List.set, ih]

theorem first_match_eq (p : Nat → Bool) :
    ∀ (fuel start tgt : Nat), start ≤ tgt → tgt < start + fuel →
      (∀ j, start ≤ j → j < tgt → p j = false) → p tgt = true →
      first_match_from p start fuel = (tgt : Int)
  | 0, _, _, h1, h2, _, _ => absurd h2 (by omega)
  | Nat.succ fuel, start, tgt, h1, h2, hlow, htgt => by
    unfold first_match_from
    by_cases hst : start = tgt
    · subst hst; simp [htgt]
    · have hp : p start = false := hlow start (Nat.le_refl _) (by omega)
      simp only [hp, Bool.false_eq_true, if_false]
      exact first_match_eq p fuel (start + 1) tgt (by omega) (by omega)
        (fun j hj1 hj2 => hlow j (by omega) hj2) htgt

theorem loadKey_len_le (env : NvsEnv) (k : NvsKey) (old : List Nat)
    (hold : old.length = NUM_PEDALS_MAX) :
    (loadKey env k old).len_buf ≤ NUM_PEDALS_MAX :=
  load_len_le _ _ _ hold

theorem loadKey_buf_length (env : NvsEnv) (k : NvsKey) (old : List Nat)
    (hold : old.length = NUM_PEDALS_MAX) :
    (loadKey env k old).data_buf.length = NUM_PEDALS_MAX :=
  load_buf_length _ _ _ hold

theorem program_pedal_press_inv (i : Nat) (s : (List Nat × Nat) × List Notice)
    (h : s.1.2 ≤ NUM_PEDALS_MAX ∧ s.1.1.length = NUM_PEDALS_MAX) :
    (program_pedal_press i s).1.2 ≤ NUM_PEDALS_MAX ∧
    (program_pedal_press i s).1.1.length = NUM_PEDALS_MAX := by
  obtain ⟨h1, h2⟩ := h
  unfold program_pedal_press
  dsimp only
  split_ifs with hA hB
  · exact ⟨h1, h2⟩
  · simp only
    exact ⟨by omega, by simp [h2]⟩
  · exact ⟨h1, h2⟩

/-! ### Claim theorems -/

/-- C2: for every chain of length `len ≤ 8` held in the 8-byte live buffer
`data`, loading the record written by a successful
`_save_patch_to_nvs(key, data, len)` back through `_load_patch_from_nvs`
succeeds and returns the same length and the same pedal-id bytes in the
same order (the output buffer is the chain zero-padded to 8 bytes). -/
theorem C2_save_load_roundtrip (env : NvsEnv) (key : NvsKey) (data old : List Nat)
    (len : Nat) (hw : env.writeFail key = false) (ho : env.openFail key = false)
    (hr : env.readFail key = false) (hlen : len ≤ NUM_PEDALS_MAX)
    (hd : data.length = NUM_PEDALS_MAX) (hold : old.length = NUM_PEDALS_MAX) :
    (save_patch_to_nvs env key data len).2 = true ∧
    loadKey (save_patch_to_nvs env key data len).1 key old =
      { err := esp_err_t.ESP_OK,
        data_buf := data.take len ++ List.replicate (NUM_PEDALS_MAX - len) 0,
        len_buf := len } := by
  unfold save_patch_to_nvs
  simp only [hw, Bool.false_eq_true, if_false]
  refine ⟨by trivial, ?_⟩
  unfold loadKey getBlobRes
  simp only [ho, hr, Bool.false_eq_true, if_false, Bool.not_false]
  simp only [setKey, if_pos rfl]
  exact load_of_save_record data old len hlen hd hold

/-- C2 witness: the round trip at a concrete chain `[3,5]`. -/
theorem C2_save_load_roundtrip_witness :
    (save_patch_to_nvs
        { store := fun _ => none, openFail := fun _ => false,
          readFail := fun _ => false, writeFail := fun _ => false }
        NvsKey.live [3, 5, 0, 0, 0, 0, 0, 0] 2).2 = true ∧
    loadKey
        (save_patch_to_nvs
          { store := fun _ => none, openFail := fun _ => false,
            readFail := fun _ => false, writeFail := fun _ => false }
          NvsKey.live [3, 5, 0, 0, 0, 0, 0, 0] 2).1
        NvsKey.live [9, 9, 9, 9, 9, 9, 9, 9] =
      { err := esp_err_t.ESP_OK,
        data_buf := [3, 5, 0, 0, 0, 0, 0, 0].take 2 ++
          List.replicate (NUM_PEDALS_MAX - 2) 0,
        len_buf := 2 } :=
  C2_save_load_roundtrip _ NvsKey.live _ _ _ rfl rfl rfl (by decide) (by decide)
    (by decide)

/-- C6: a load whose key is absent returns `ESP_OK` with length 0 (the
empty chain), and a load whose stored record is not exactly 9 bytes
returns a non-`ESP_OK` error with the output forced to the empty chain
(length 0, buffer zeroed). -/
theorem C6_load_error_semantics :
    (∀ old : List Nat, old.length = NUM_PEDALS_MAX →
      load_patch_from_nvs true nvs_get_res.notFound old =
        { err := esp_err_t.ESP_OK, data_buf := List.replicate NUM_PEDALS_MAX 0,
          len_buf := 0 }) ∧
    (∀ r old : List Nat, old.length = NUM_PEDALS_MAX →
      r.length ≠ NUM_PEDALS_MAX + 1 →
      (load_patch_from_nvs true (nvs_get_res.found r) old).err ≠ esp_err_t.ESP_OK ∧
      (load_patch_from_nvs true (nvs_get_res.found r) old).len_buf = 0 ∧
      (load_patch_from_nvs true (nvs_get_res.found r) old).data_buf =
        List.replicate NUM_PEDALS_MAX 0) := by
  constructor
  · intro old hold
    exact load_notFound old hold
  · intro r old hold hr9
    by_cases h1 : r.length ≤ NUM_PEDALS_MAX + 1
    · rw [load_found_small r old h1 hr9 hold]
      refine ⟨?_, rfl, rfl⟩
      intro h
      exact esp_err_t.noConfusion h
    · rw [load_found_big r old h1 hold]
      refine ⟨?_, rfl, rfl⟩
      intro h
      exact esp_err_t.noConfusion h

/-- C6 witness: absent key at a concrete buffer, and a concrete 3-byte
record (size mismatch). -/
theorem C6_load_error_semantics_witness :
    load_patch_from_nvs true nvs_get_res.notFound [7, 7, 7, 7, 7, 7, 7, 7] =
      { err := esp_err_t.ESP_OK, data_buf := List.replicate NUM_PEDALS_MAX 0,
        len_buf := 0 } ∧
    ((load_patch_from_nvs true (nvs_get_res.found [2, 4, 6])
        [7, 7, 7, 7, 7, 7, 7, 7]).err ≠ esp_err_t.ESP_OK ∧
      (load_patch_from_nvs true (nvs_get_res.found [2, 4, 6])
        [7, 7, 7, 7, 7, 7, 7, 7]).len_buf = 0 ∧
      (load_patch_from_nvs true (nvs_get_res.found [2, 4, 6])
        [7, 7, 7, 7, 7, 7, 7, 7]).data_buf = List.replicate NUM_PEDALS_MAX 0) :=
  ⟨C6_load_error_semantics.1 _ (by decide),
   C6_load_error_semantics.2 [2, 4, 6] _ (by decide) (by decide)⟩

/-- C8: a 9-byte record whose length byte exceeds 8 is clamped to length
exactly 8 with exactly the 8 data bytes copied; and for every load
outcome the returned length is at most 8 and the 8-byte output buffer is
fully written (same size, and independent of its prior contents). -/
theorem C8_clamp_and_fully_written :
    (∀ r old : List Nat, r.length = NUM_PEDALS_MAX + 1 →
      NUM_PEDALS_MAX < r.headD 0 → old.length = NUM_PEDALS_MAX →
      (load_patch_from_nvs true (nvs_get_res.found r) old).len_buf = NUM_PEDALS_MAX ∧
      (load_patch_from_nvs true (nvs_get_res.found r) old).data_buf = r.drop 1) ∧
    (∀ (ok : Bool) (g : nvs_get_res) (old old2 : List Nat),
      old.length = NUM_PEDALS_MAX → old2.length = NUM_PEDALS_MAX →
      (load_patch_from_nvs ok g old).len_buf ≤ NUM_PEDALS_MAX ∧
      (load_patch_from_nvs ok g old).data_buf.length = NUM_PEDALS_MAX ∧
      load_patch_from_nvs ok g old = load_patch_from_nvs ok g old2) := by
  constructor
  · intro r old hr hbig hold
    rw [load_found_9 r old hr hold]
    have hdrop : (r.drop 1).length = NUM_PEDALS_MAX := by
      simp [List.length_drop, hr]
    simp only [if_pos hbig]
    refine ⟨by trivial, ?_⟩
    rw [List.take_of_length_le hdrop.le, Nat.sub_self]
    simp
  · intro ok g old old2 hold hold2
    exact ⟨load_len_le ok g old hold, load_buf_length ok g old hold,
      load_indep ok g old old2 hold hold2⟩

/-- C8 witness: a concrete 9-byte record with length byte 12, and
independence of the prior buffer contents at concrete buffers. -/
theorem C8_clamp_and_fully_written_witness :
    ((load_patch_from_nvs true (nvs_get_res.found [12, 1, 2, 3, 4, 5, 6, 7, 8])
        [9, 9, 9, 9, 9, 9, 9, 9]).len_buf = NUM_PEDALS_MAX ∧
      (load_patch_from_nvs true (nvs_get_res.found [12, 1, 2, 3, 4, 5, 6, 7, 8])
        [9, 9, 9, 9, 9, 9, 9, 9]).data_buf = [12, 1, 2, 3, 4, 5, 6, 7, 8].drop 1) ∧
    ((load_patch_from_nvs true nvs_get_res.ioError [9, 9, 9, 9, 9, 9, 9, 9]).len_buf ≤
        NUM_PEDALS_MAX ∧
      (load_patch_from_nvs true nvs_get_res.ioError
        [9, 9, 9, 9, 9, 9, 9, 9]).data_buf.length = NUM_PEDALS_MAX ∧
      load_patch_from_nvs true nvs_get_res.ioError [9, 9, 9, 9, 9, 9, 9, 9] =
        load_patch_from_nvs true nvs_get_res.ioError [0, 1, 2, 3, 4, 5, 6, 7]) :=
  ⟨C8_clamp_and_fully_written.1 [12, 1, 2, 3, 4, 5, 6, 7, 8] _ (by decide) (by decide)
      (by decide),
   C8_clamp_and_fully_written.2 true nvs_get_res.ioError _ _ (by decide) (by decide)⟩

/-- C10: `buttons_get_current_patch_for_matrix` reports exactly
`live_patch_len`, and its output buffer is fully determined: the first
`live_patch_len` bytes are `live_patch_data` in order and the remaining
bytes up to 8 are zero. -/
theorem C10_matrix_copy (live_data patch_buffer : List Nat) (live_len : Nat)
    (hd : live_data.length = NUM_PEDALS_MAX)
    (hb : patch_buffer.length = NUM_PEDALS_MAX) (hl : live_len ≤ NUM_PEDALS_MAX) :
    (buttons_get_current_patch_for_matrix live_data live_len patch_buffer).2 =
      live_len ∧
    (buttons_get_current_patch_for_matrix live_data live_len patch_buffer).1 =
      live_data.take live_len ++ List.replicate (NUM_PEDALS_MAX - live_len) 0 ∧
    (buttons_get_current_patch_for_matrix live_data live_len
      patch_buffer).1.length = NUM_PEDALS_MAX := by
  have htake : (live_data.take live_len).length = live_len := by
    simp [List.length_take, hd]; omega
  have hmain :
      (buttons_get_current_patch_for_matrix live_data live_len patch_buffer).1 =
        live_data.take live_len ++ List.replicate (NUM_PEDALS_MAX - live_len) 0 := by
    unfold buttons_get_current_patch_for_matrix memcpyHead
    by_cases hc : live_len < NUM_PEDALS_MAX
    · simp only [if_pos hc, memsetZero]
      rw [List.take_left' htake]
      rw [List.drop_eq_nil_of_le
        (by simp [htake, hb] :
          (live_data.take live_len ++ patch_buffer.drop live_len).length ≤
            live_len + (NUM_PEDALS_MAX - live_len))]
      simp
    · have hc8 : live_len = NUM_PEDALS_MAX := by omega
      rw [hc8]
      simp [List.take_of_length_le hd.le, List.drop_eq_nil_of_le hb.le, Nat.sub_self]
  refine ⟨rfl, hmain, ?_⟩
  rw [hmain]
  simp [htake]
  omega

/-- C3: in `ProgramChain` mode a short press of pedal `i` appends pedal id
`i+1` exactly when the chain is shorter than 8 and `i+1` is not already
present; in every other case chain data and length are unchanged; and a
second press of the same pedal without an intervening commit never grows
the chain past the length reached by the first press. -/
theorem C3_program_append (data : List Nat) (len i : Nat) (ns : List Notice)
    (hd : data.length = NUM_PEDALS_MAX) (_hlen : len ≤ NUM_PEDALS_MAX) :
    ((len < NUM_PEDALS_MAX ∧ (data.take len).contains (i + 1) = false) →
      program_pedal_press i ((data, len), ns) = ((data.set len (i + 1), len + 1), ns) ∧
      (data.set len (i + 1)).take (len + 1) = data.take len ++ [i + 1]) ∧
    ((¬ len < NUM_PEDALS_MAX ∨ (data.take len).contains (i + 1) = true) →
      (program_pedal_press i ((data, len), ns)).1 = (data, len)) ∧
    (program_pedal_press i (program_pedal_press i ((data, len), ns))).1.2 =
      (program_pedal_press i ((data, len), ns)).1.2 := by
  have hset : len < NUM_PEDALS_MAX →
      (data.set len (i + 1)).take (len + 1) = data.take len ++ [i + 1] := by
    intro h
    exact take_set_self data len (i + 1) (by omega)
  refine ⟨?_, ?_, ?_⟩
  · rintro ⟨h1, h2⟩
    simp only [List.contains, List.elem_eq_mem, decide_eq_false_iff_not] at h2
    refine ⟨?_, hset h1⟩
    unfold program_pedal_press
    simp [h1, h2]
  · rintro (h | h)
    · unfold program_pedal_press
      simp [h]
    · simp only [List.contains, List.elem_eq_mem, decide_eq_true_eq] at h
      unfold program_pedal_press
      by_cases h1 : len < NUM_PEDALS_MAX
      · simp [h1, h]
      · simp [h1]
  · by_cases h1 : len < NUM_PEDALS_MAX
    · by_cases h2 : i + 1 ∈ data.take len
      · unfold program_pedal_press
        simp [h1, h2]
      · have hfst : program_pedal_press i ((data, len), ns) =
            ((data.set len (i + 1), len + 1), ns) := by
          unfold program_pedal_press
          simp [h1, h2]
        rw [hfst]
        by_cases h3 : len + 1 < NUM_PEDALS_MAX
        · have hcontains : i + 1 ∈ (data.set len (i + 1)).take (len + 1) := by
            rw [hset h1]
            simp
          unfold program_pedal_press
          simp [h3, hcontains]
        · unfold program_pedal_press
          simp [h3]
    · unfold program_pedal_press
      simp [h1]

/-- C3 witness: chain `[4]` of length 1, pressing pedal 2 (id 3) appends,
and the duplicate/full cases at the same input. -/
theorem C3_program_append_witness :
    ((1 < NUM_PEDALS_MAX ∧ ([4, 0, 0, 0, 0, 0, 0, 0].take 1).contains (2 + 1) = false) →
      program_pedal_press 2 (([4, 0, 0, 0, 0, 0, 0, 0], 1), []) =
        (([4, 0, 0, 0, 0, 0, 0, 0].set 1 (2 + 1), 1 + 1), []) ∧
      ([4, 0, 0, 0, 0, 0, 0, 0].set 1 (2 + 1)).take (1 + 1) =
        [4, 0, 0, 0, 0, 0, 0, 0].take 1 ++ [2 + 1]) ∧
    ((¬ 1 < NUM_PEDALS_MAX ∨ ([4, 0, 0, 0, 0, 0, 0, 0].take 1).contains (2 + 1) = true) →
      (program_pedal_press 2 (([4, 0, 0, 0, 0, 0, 0, 0], 1), [])).1 =
        ([4, 0, 0, 0, 0, 0, 0, 0], 1)) ∧
    (program_pedal_press 2 (program_pedal_press 2
      (([4, 0, 0, 0, 0, 0, 0, 0], 1), []))).1.2 =
      (program_pedal_press 2 (([4, 0, 0, 0, 0, 0, 0, 0], 1), [])).1.2 :=
  C3_program_append [4, 0, 0, 0, 0, 0, 0, 0] 1 2 [] (by decide) (by decide)

theorem pb_false_ongoing (r1 r2 : Bool) (now : Nat) (b : button_state_t)
    (h : b.ongoing_long_press = false) :
    (process_button false r1 r2 now b).ongoing_long_press = false ∧
    (process_button false r1 r2 now b).long_press_event = false := by
  unfold process_button
  dsimp only
  split_ifs <;> simp_all

theorem pb_release_short (r1 r2 : Bool) (now : Nat) (b : button_state_t)
    (h : b.ongoing_long_press = false) (hc : b.current_state = true)
    (hc2 : (process_button false r1 r2 now b).current_state = false) :
    (process_button false r1 r2 now b).short_press_event = true := by
  unfold process_button at hc2 ⊢
  dsimp only at hc2 ⊢
  split_ifs at hc2 ⊢ <;> simp_all

theorem btn_run_nonpreset_inv : ∀ (ops : List btn_op) (b : button_state_t),
    b.ongoing_long_press = false → b.long_press_event = false →
    (btn_run false b ops).ongoing_long_press = false ∧
    (btn_run false b ops).long_press_event = false
  | [], _, h1, h2 => ⟨h1, h2⟩
  | op :: ops, b, h1, h2 => by
    cases op with
    | poll r1 r2 now =>
      have hstep := pb_false_ongoing r1 r2 now b h1
      exact btn_run_nonpreset_inv ops _ hstep.1 hstep.2
    | consume =>
      exact btn_run_nonpreset_inv ops _ (by simp [btn_step]) (by simp [btn_step, h2])

/-- C9: for every input other than the Preset control, the
`ongoing_long_press` latch is never set and `long_press_event` is never
emitted along any polling trace, and every debounced release on such an
input is classified as a short press. -/
theorem C9_nonpreset_short_only :
    (∀ (ops : List btn_op) (b : button_state_t),
      b.ongoing_long_press = false → b.long_press_event = false →
      (btn_run false b ops).ongoing_long_press = false ∧
      (btn_run false b ops).long_press_event = false) ∧
    (∀ (r1 r2 : Bool) (now : Nat) (b : button_state_t),
      b.ongoing_long_press = false → b.current_state = true →
      (process_button false r1 r2 now b).current_state = false →
      (process_button false r1 r2 now b).short_press_event = true) :=
  ⟨btn_run_nonpreset_inv, pb_release_short⟩

/-- C9 witness: a pedal button held far past the long-press threshold and
then released is still reported as a short press, with the latch never
set along the trace. -/
theorem C9_nonpreset_short_only_witness :
    ((btn_run false
        { current_state := false, last_state := false, press_time_ms := 0,
          release_time_ms := 0, short_press_event := false,
          long_press_event := false, ongoing_long_press := false }
        [btn_op.poll true true 0, btn_op.poll true true 2000]).ongoing_long_press =
        false ∧
      (btn_run false
        { current_state := false, last_state := false, press_time_ms := 0,
          release_time_ms := 0, short_press_event := false,
          long_press_event := false, ongoing_long_press := false }
        [btn_op.poll true true 0, btn_op.poll true true 2000]).long_press_event =
        false) ∧
    (process_button false false false 5000
      { current_state := true, last_state := true, press_time_ms := 0,
        release_time_ms := 0, short_press_event := false,
        long_press_event := false, ongoing_long_press := false }).short_press_event =
      true :=
  ⟨C9_nonpreset_short_only.1 _ _ (by decide) (by decide),
   C9_nonpreset_short_only.2 false false 5000 _ (by decide) (by decide) (by decide)⟩

theorem pb_preset_stable (now : Nat) (b : button_state_t)
    (hc : b.current_state = true) (hl : b.last_state = true) :
    (process_button true true true now b).current_state = true ∧
    (process_button true true true now b).last_state = true ∧
    (b.ongoing_long_press = true →
      (process_button true true true now b).ongoing_long_press = true) := by
  unfold process_button
  dsimp only
  split_ifs <;> simp_all

theorem latch_no_rise : ∀ (ops : List btn_op) (b : button_state_t),
    b.current_state = true → b.last_state = true → b.ongoing_long_press = true →
    (∀ op ∈ ops, is_pressed_poll op = true) →
    latch_rises true b ops = 0
  | [], _, _, _, _, _ => rfl
  | op :: ops, b, hc, hl, ho, hall => by
    cases op with
    | poll r1 r2 now =>
      have hp := hall _ (List.mem_cons_self _ _)
      cases r1 <;> cases r2 <;> simp [is_pressed_poll] at hp
      have hstep := pb_preset_stable now b hc hl
      have hong := hstep.2.2 ho
      unfold latch_rises
      simp only [btn_step, ho, hong]
      rw [latch_no_rise ops _ hstep.1 hstep.2.1 hong
        (fun o ho2 => hall o (List.mem_cons_of_mem _ ho2))]
      simp
    | consume =>
      have hp := hall _ (List.mem_cons_self _ _)
      simp [is_pressed_poll] at hp

theorem latch_at_most_one : ∀ (ops : List btn_op) (b : button_state_t),
    b.current_state = true → b.last_state = true →
    (∀ op ∈ ops, is_pressed_poll op = true) →
    latch_rises true b ops ≤ 1
  | [], _, _, _, _ => by simp [latch_rises]
  | op :: ops, b, hc, hl, hall => by
    cases op with
    | poll r1 r2 now =>
      have hp := hall _ (List.mem_cons_self _ _)
      cases r1 <;> cases r2 <;> simp [is_pressed_poll] at hp
      have hstep := pb_preset_stable now b hc hl
      have hall2 : ∀ op ∈ ops, is_pressed_poll op = true :=
        fun o ho2 => hall o (List.mem_cons_of_mem _ ho2)
      by_cases ho : b.ongoing_long_press = true
      · have hong := hstep.2.2 ho
        unfold latch_rises
        simp only [btn_step, ho, hong]
        rw [latch_no_rise ops _ hstep.1 hstep.2.1 hong hall2]
        simp
      · have ho2 : b.ongoing_long_press = false := by
          simpa using ho
        by_cases h2 : (process_button true true true now b).ongoing_long_press = true
        · unfold latch_rises
          simp only [btn_step, ho2, h2]
          rw [latch_no_rise ops _ hstep.1 hstep.2.1 h2 hall2]
          simp
        · have h2f : (process_button true true true now b).ongoing_long_press = false := by
            simpa using h2
          unfold latch_rises
          simp [btn_step, h2f]
          exact latch_at_most_one ops _ hstep.1 hstep.2.1 hall2
    | consume =>
      have hp := hall _ (List.mem_cons_self _ _)
      simp [is_pressed_poll] at hp

/-- C4 (amended): along one physical hold of the Preset control during
which the state machine does not clear the latch (every interaction is a
polling cycle with the button held), the `ongoing_long_press` latch
transitions from false to true at most once; it is the state machine's
mid-hold consumption that re-arms it before release (see the
counterexample). -/
theorem C4_latch_once_without_consume (ops : List btn_op) (b : button_state_t)
    (hc : b.current_state = true) (hl : b.last_state = true)
    (hall : ∀ op ∈ ops, is_pressed_poll op = true) :
    latch_rises true b ops ≤ 1 :=
  latch_at_most_one ops b hc hl hall

/-- C4 witness: a concrete two-poll hold crossing the threshold rises the
latch exactly once (hence at most once). -/
theorem C4_latch_once_without_consume_witness :
    latch_rises true
      { current_state := true, last_state := true, press_time_ms := 0,
        release_time_ms := 0, short_press_event := false,
        long_press_event := false, ongoing_long_press := false }
      [btn_op.poll true true 1500, btn_op.poll true true 1600] ≤ 1 :=
  C4_latch_once_without_consume _ _ (by decide) (by decide) (by decide)

/-- C4 counterexample: one physical hold of the Preset control (the button
reads pressed on every poll and is still held at the end), in which the
state machine consumes the latch after the threshold crossing; the latch
then transitions false→true a second time before any release, refuting
"at most once per hold, re-arm only after release". -/
theorem C4_counterexample :
    (([btn_op.poll true true 1500, btn_op.consume,
        btn_op.poll true true 1600] : List btn_op).all
      (fun op => is_pressed_poll op || decide (op = btn_op.consume)) = true) ∧
    (btn_run true
      { current_state := true, last_state := true, press_time_ms := 0,
        release_time_ms := 0, short_press_event := false,
        long_press_event := false, ongoing_long_press := false }
      [btn_op.poll true true 1500, btn_op.consume,
        btn_op.poll true true 1600]).current_state = true ∧
    latch_rises true
      { current_state := true, last_state := true, press_time_ms := 0,
        release_time_ms := 0, short_press_event := false,
        long_press_event := false, ongoing_long_press := false }
      [btn_op.poll true true 1500, btn_op.consume,
        btn_op.poll true true 1600] = 2 := by
  refine ⟨by decide, by decide, by decide⟩

/-- C5: the invariant `len(LiveConfig) ≤ 8` (together with the 8-byte
buffer keeping its size) holds in every reachable state: `buttons_init`
establishes it and every iteration of the `buttons_task` state machine —
programming appends, NVS loads of the live config or a preset, recall,
save and cancel — preserves it, for every NVS environment and every
combination of button events. -/
theorem C5_chain_length_invariant :
    (∀ env : NvsEnv, SysInv (buttons_init_state env)) ∧
    (∀ (env : NvsEnv) (ev : Events) (st : SysState),
      SysInv st → SysInv (buttons_task_step env ev st).1) := by
  constructor
  · intro env
    unfold buttons_init_state SysInv
    have h1 := loadKey_len_le env NvsKey.live (List.replicate NUM_PEDALS_MAX 0)
      (by simp)
    have h2 := loadKey_buf_length env NvsKey.live (List.replicate NUM_PEDALS_MAX 0)
      (by simp)
    dsimp only
    split
    · simp
    · exact ⟨h1, h2⟩
  · intro env ev st hinv
    obtain ⟨hlen, hdata⟩ := hinv
    cases hm : st.current_system_mode with
    | MODE_LIVE =>
      simp only [buttons_task_step, hm]
      split_ifs <;> simp [SysInv, hlen, hdata]
    | MODE_PROGRAM_CHAIN =>
      simp only [buttons_task_step, hm]
      split_ifs
      · exact ⟨hlen, hdata⟩
      · exact ⟨loadKey_len_le _ _ _ hdata, loadKey_buf_length _ _ _ hdata⟩
      · have hfold := foldl_preserve
          (fun s : (List Nat × Nat) × List Notice =>
            s.1.2 ≤ NUM_PEDALS_MAX ∧ s.1.1.length = NUM_PEDALS_MAX)
          (fun s i => if ev.pedal_short.getD i false then program_pedal_press i s else s)
          (fun s i hs => by
            dsimp only
            by_cases hped : ev.pedal_short.getD i false = true
            · rw [if_pos hped]; exact program_pedal_press_inv i s hs
            · rw [if_neg hped]; exact hs)
          (List.range NUM_PEDALS_MAX)
          ((st.live_patch_data, st.live_patch_len), [])
          ⟨hlen, hdata⟩
        exact ⟨hfold.1, hfold.2⟩
    | MODE_RECALL_SLOT_SELECT =>
      simp only [buttons_task_step, hm]
      split_ifs
      · exact ⟨hlen, hdata⟩
      · cases hfp : firstPressedPedal ev with
        | none => simp only [hfp]; exact ⟨hlen, hdata⟩
        | some i =>
          simp only [hfp]
          split_ifs
          · exact ⟨loadKey_len_le _ _ _ hdata, loadKey_buf_length _ _ _ hdata⟩
          · exact ⟨loadKey_len_le _ _ _ (loadKey_buf_length _ _ _ hdata),
              loadKey_buf_length _ _ _ (loadKey_buf_length _ _ _ hdata)⟩
    | MODE_SAVE_SLOT_SELECT =>
      simp only [buttons_task_step, hm]
      split_ifs
      · exact ⟨hlen, hdata⟩
      · cases hfp : firstPressedPedal ev with
        | none => simp only [hfp]; exact ⟨hlen, hdata⟩
        | some i =>
          simp only [hfp]
          split_ifs <;> exact ⟨hlen, hdata⟩

/-- C5 witness: the invariant after one step at a concrete state, event
set and (fault-free, empty) NVS environment. -/
theorem C5_chain_length_invariant_witness :
    SysInv (buttons_task_step
      { store := fun _ => none, openFail := fun _ => false,
        readFail := fun _ => false, writeFail := fun _ => false }
      { edit_short := true, preset_short := false, preset_ongoing_long := false,
        pedal_short := [false, false, false, false, false, false, false, false] }
      { current_system_mode := patch_bay_system_mode_t.MODE_LIVE,
        live_patch_data := [1, 2, 3, 0, 0, 0, 0, 0], live_patch_len := 3,
        loaded_from_preset_slot := -1 }).1 :=
  C5_chain_length_invariant.2 _ _ _ ⟨by decide, by decide⟩

/-- C7: in `SaveSelect` mode, when persisting into preset slot `i` fails,
the entire in-memory state (`loaded_from_preset_slot`, `live_patch_data`,
`live_patch_len`) and the NVS store are left unchanged, a save error is
notified and the machine returns to `Live`; on success the slot is stored,
`loaded_from_preset_slot` becomes `i`, and the live key is re-persisted. -/
theorem C7_save_failure_keeps_state (env : NvsEnv) (ev : Events) (st : SysState)
    (i : Nat) (hm : st.current_system_mode = patch_bay_system_mode_t.MODE_SAVE_SLOT_SELECT)
    (hp : ev.preset_short = false) (he : ev.edit_short = false)
    (hfp : firstPressedPedal ev = some i) :
    (env.writeFail (NvsKey.preset i) = true →
      buttons_task_step env ev st =
        ({ st with current_system_mode := patch_bay_system_mode_t.MODE_LIVE },
          env, [Notice.saveErr i])) ∧
    (env.writeFail (NvsKey.preset i) = false →
      (buttons_task_step env ev st).1 =
        { st with
            current_system_mode := patch_bay_system_mode_t.MODE_LIVE,
            loaded_from_preset_slot := (i : Int) } ∧
      (buttons_task_step env ev st).2.2 = [Notice.savedTo i] ∧
      (buttons_task_step env ev st).2.1.store (NvsKey.preset i) =
        some (save_record st.live_patch_data st.live_patch_len) ∧
      (env.writeFail NvsKey.live = false →
        (buttons_task_step env ev st).2.1.store NvsKey.live =
          some (save_record st.live_patch_data st.live_patch_len))) := by
  constructor
  · intro hw
    simp only [buttons_task_step, hm, hp, he, Bool.or_self, Bool.false_eq_true,
      if_false, hfp]
    simp [save_patch_to_nvs, hw]
  · intro hw
    simp only [buttons_task_step, hm, hp, he, Bool.or_self, Bool.false_eq_true,
      if_false, hfp]
    by_cases hw2 : env.writeFail NvsKey.live = true
    · simp [save_patch_to_nvs, hw, hw2, setKey]
    · simp only [Bool.not_eq_true] at hw2
      simp [save_patch_to_nvs, hw, hw2, setKey]

/-- C7 witness: a failing save to slot 2 at a concrete state, and the
successful branch exercised by the theorem's hypotheses being
dischargeable (write fault on `preset_2` only). -/
theorem C7_save_failure_keeps_state_witness :
    buttons_task_step
      { store := fun _ => none, openFail := fun _ => false,
        readFail := fun _ => false,
        writeFail := fun k => k = NvsKey.preset 2 }
      { edit_short := false, preset_short := false, preset_ongoing_long := false,
        pedal_short := [false, false, true, false, false, false, false, false] }
      { current_system_mode := patch_bay_system_mode_t.MODE_SAVE_SLOT_SELECT,
        live_patch_data := [5, 0, 0, 0, 0, 0, 0, 0], live_patch_len := 1,
        loaded_from_preset_slot := -1 } =
      ({ current_system_mode := patch_bay_system_mode_t.MODE_LIVE,
         live_patch_data := [5, 0, 0, 0, 0, 0, 0, 0], live_patch_len := 1,
         loaded_from_preset_slot := -1 },
       { store := fun _ => none, openFail := fun _ => false,
         readFail := fun _ => false,
         writeFail := fun k => k = NvsKey.preset 2 },
       [Notice.saveErr 2]) :=
  (C7_save_failure_keeps_state
    { store := fun _ => none, openFail := fun _ => false,
      readFail := fun _ => false,
      writeFail := fun k => k = NvsKey.preset 2 }
    { edit_short := false, preset_short := false, preset_ongoing_long := false,
      pedal_short := [false, false, true, false, false, false, false, false] }
    { current_system_mode := patch_bay_system_mode_t.MODE_SAVE_SLOT_SELECT,
      live_patch_data := [5, 0, 0, 0, 0, 0, 0, 0], live_patch_len := 1,
      loaded_from_preset_slot := -1 }
    2 (by decide) (by decide) (by decide) (by decide)).1 (by decide)

/-- C1 counterexample: preset slot 0 already holds a chain identical to
LiveConfig `[1]`; a `SaveSelect` commit into slot 1 succeeds (notice
`savedTo 1`, `loaded_from_preset_slot` set to 1 by the code), slot 0
still matches LiveConfig, and the first-match scan
`_update_loaded_from_preset_slot_status` returns 0, not 1 — refuting the
claim that it returns `Some(i)` even when a slot `j < i` holds an
identical chain. -/
theorem C1_counterexample :
    (buttons_task_step cex_env cex_ev cex_st).2.2 = [Notice.savedTo 1] ∧
    (buttons_task_step cex_env cex_ev cex_st).1.loaded_from_preset_slot = 1 ∧
    is_live_patch_same_as_preset (buttons_task_step cex_env cex_ev cex_st).2.1
      (buttons_task_step cex_env cex_ev cex_st).1.live_patch_data
      (buttons_task_step cex_env cex_ev cex_st).1.live_patch_len 0 = true ∧
    update_loaded_from_preset_slot_status (buttons_task_step cex_env cex_ev cex_st).2.1
      (buttons_task_step cex_env cex_ev cex_st).1.live_patch_data
      (buttons_task_step cex_env cex_ev cex_st).1.live_patch_len ≠ (1 : Int) :=
  ⟨by decide, by decide, by decide, by decide⟩

/-- C1 (amended): immediately after a `SaveSelect` press commits
LiveConfig into slot `i` successfully, the first-match scan over slots
0..7 returns `Some(i)` **provided no slot `j < i` holds a chain identical
to LiveConfig**; slot `i` itself always matches, and the code sets
`loaded_from_preset_slot := i` directly without re-running the scan. -/
theorem C1_scan_after_save (env : NvsEnv) (ev : Events) (st : SysState) (i : Nat)
    (hm : st.current_system_mode = patch_bay_system_mode_t.MODE_SAVE_SLOT_SELECT)
    (hp : ev.preset_short = false) (he : ev.edit_short = false)
    (hfp : firstPressedPedal ev = some i) (hi : i < NUM_PRESETS)
    (hw : env.writeFail (NvsKey.preset i) = false)
    (hro : env.openFail (NvsKey.preset i) = false)
    (hrr : env.readFail (NvsKey.preset i) = false)
    (hlen : st.live_patch_len ≤ NUM_PEDALS_MAX)
    (hd : st.live_patch_data.length = NUM_PEDALS_MAX) :
    (buttons_task_step env ev st).1.loaded_from_preset_slot = (i : Int) ∧
    is_live_patch_same_as_preset (buttons_task_step env ev st).2.1
      (buttons_task_step env ev st).1.live_patch_data
      (buttons_task_step env ev st).1.live_patch_len i = true ∧
    ((∀ j, j < i →
        is_live_patch_same_as_preset (buttons_task_step env ev st).2.1
          (buttons_task_step env ev st).1.live_patch_data
          (buttons_task_step env ev st).1.live_patch_len j = false) →
      update_loaded_from_preset_slot_status (buttons_task_step env ev st).2.1
        (buttons_task_step env ev st).1.live_patch_data
        (buttons_task_step env ev st).1.live_patch_len = (i : Int)) := by
  have hstep : buttons_task_step env ev st =
      ({ st with
           current_system_mode := patch_bay_system_mode_t.MODE_LIVE,
           loaded_from_preset_slot := (i : Int) },
       (save_patch_to_nvs
         (save_patch_to_nvs env (NvsKey.preset i) st.live_patch_data
           st.live_patch_len).1
         NvsKey.live st.live_patch_data st.live_patch_len).1,
       [Notice.savedTo i]) := by
    simp only [buttons_task_step, hm, hp, he, Bool.or_self, Bool.false_eq_true,
      if_false, hfp]
    simp [save_patch_to_nvs, hw]
  have hstore : (buttons_task_step env ev st).2.1.store (NvsKey.preset i) =
      some (save_record st.live_patch_data st.live_patch_len) := by
    rw [hstep]
    by_cases hw2 : env.writeFail NvsKey.live = true
    · simp [save_patch_to_nvs, hw, hw2, setKey]
    · simp only [Bool.not_eq_true] at hw2
      simp [save_patch_to_nvs, hw, hw2, setKey]
  have hopen : (buttons_task_step env ev st).2.1.openFail = env.openFail := by
    rw [hstep]
    by_cases hw2 : env.writeFail NvsKey.live = true
    · simp [save_patch_to_nvs, hw, hw2]
    · simp only [Bool.not_eq_true] at hw2
      simp [save_patch_to_nvs, hw, hw2]
  have hread : (buttons_task_step env ev st).2.1.readFail = env.readFail := by
    rw [hstep]
    by_cases hw2 : env.writeFail NvsKey.live = true
    · simp [save_patch_to_nvs, hw, hw2]
    · simp only [Bool.not_eq_true] at hw2
      simp [save_patch_to_nvs, hw, hw2]
  have hdata : (buttons_task_step env ev st).1.live_patch_data =
      st.live_patch_data := by
    rw [hstep]
  have hlen2 : (buttons_task_step env ev st).1.live_patch_len =
      st.live_patch_len := by
    rw [hstep]
  have htk : ((st.live_patch_data.take st.live_patch_len ++
      List.replicate (NUM_PEDALS_MAX - st.live_patch_len) 0).take
        st.live_patch_len) = st.live_patch_data.take st.live_patch_len :=
    List.take_left' (by simp [List.length_take, hd]; omega)
  have hsame : is_live_patch_same_as_preset (buttons_task_step env ev st).2.1
      st.live_patch_data st.live_patch_len i = true := by
    unfold is_live_patch_same_as_preset loadKey getBlobRes
    rw [hopen, hread, hstore, hro, hrr]
    simp only [Bool.not_false, Bool.false_eq_true, if_false]
    simp only [load_of_save_record st.live_patch_data
      (List.replicate NUM_PEDALS_MAX 0) st.live_patch_len hlen hd (by simp)]
    simp [htk]
  refine ⟨by rw [hstep], ?_, ?_⟩
  · rw [hdata, hlen2]
    exact hsame
  · intro hnone
    rw [hdata, hlen2] at hnone ⊢
    unfold update_loaded_from_preset_slot_status
    exact first_match_eq _ NUM_PRESETS 0 i (Nat.zero_le i) (by simpa using hi)
      (fun j _ hj => hnone j hj) hsame

/-- C1 amended-claim witness: saving the chain `[3]` into slot 0 (no
smaller slot exists, so the scan must return slot 0). -/
theorem C1_scan_after_save_witness :
    (buttons_task_step
      { store := fun _ => none, openFail := fun _ => false,
        readFail := fun _ => false, writeFail := fun _ => false }
      { edit_short := false, preset_short := false, preset_ongoing_long := false,
        pedal_short := [true, false, false, false, false, false, false, false] }
      { current_system_mode := patch_bay_system_mode_t.MODE_SAVE_SLOT_SELECT,
        live_patch_data := [3, 0, 0, 0, 0, 0, 0, 0], live_patch_len := 1,
        loaded_from_preset_slot := -1 }).1.loaded_from_preset_slot =
      ((0 : Nat) : Int) ∧
    update_loaded_from_preset_slot_status
      (buttons_task_step
        { store := fun _ => none, openFail := fun _ => false,
          readFail := fun _ => false, writeFail := fun _ => false }
        { edit_short := false, preset_short := false, preset_ongoing_long := false,
          pedal_short := [true, false, false, false, false, false, false, false] }
        { current_system_mode := patch_bay_system_mode_t.MODE_SAVE_SLOT_SELECT,
          live_patch_data := [3, 0, 0, 0, 0, 0, 0, 0], live_patch_len := 1,
          loaded_from_preset_slot := -1 }).2.1
      (buttons_task_step
        { store := fun _ => none, openFail := fun _ => false,
          readFail := fun _ => false, writeFail := fun _ => false }
        { edit_short := false, preset_short := false, preset_ongoing_long := false,
          pedal_short := [true, false, false, false, false, false, false, false] }
        { current_system_mode := patch_bay_system_mode_t.MODE_SAVE_SLOT_SELECT,
          live_patch_data := [3, 0, 0, 0, 0, 0, 0, 0], live_patch_len := 1,
          loaded_from_preset_slot := -1 }).1.live_patch_data
      (buttons_task_step
        { store := fun _ => none, openFail := fun _ => false,
          readFail := fun _ => false, writeFail := fun _ => false }
        { edit_short := false, preset_short := false, preset_ongoing_long := false,
          pedal_short := [true, false, false, false, false, false, false, false] }
        { current_system_mode := patch_bay_system_mode_t.MODE_SAVE_SLOT_SELECT,
          live_patch_data := [3, 0, 0, 0, 0, 0, 0, 0], live_patch_len := 1,
          loaded_from_preset_slot := -1 }).1.live_patch_len = ((0 : Nat) : Int) :=
  ⟨(C1_scan_after_save _ _ _ 0 (by decide) (by decide) (by decide) (by decide)
      (by decide) (by decide) (by decide) (by decide) (by decide) (by decide)).1,
   (C1_scan_after_save _ _ _ 0 (by decide) (by decide) (by decide) (by decide)
      (by decide) (by decide) (by decide) (by decide) (by decide) (by decide)).2.2
     (fun j hj => absurd hj (Nat.not_lt_zero j))⟩

/-- C10 witness: concrete live chain `[2,7,1]` of length 3. -/
theorem C10_matrix_copy_witness :
    (buttons_get_current_patch_for_matrix [2, 7, 1, 0, 0, 0, 0, 0] 3
      [9, 9, 9, 9, 9, 9, 9, 9]).2 = 3 ∧
    (buttons_get_current_patch_for_matrix [2, 7, 1, 0, 0, 0, 0, 0] 3
      [9, 9, 9, 9, 9, 9, 9, 9]).1 =
      [2, 7, 1, 0, 0, 0, 0, 0].take 3 ++ List.replicate (NUM_PEDALS_MAX - 3) 0 ∧
    (buttons_get_current_patch_for_matrix [2, 7, 1, 0, 0, 0, 0, 0] 3
      [9, 9, 9, 9, 9, 9, 9, 9]).1.length = NUM_PEDALS_MAX :=
  C10_matrix_copy _ _ 3 (by decide) (by decide) (by decide)

end PatchBay
